import Mathlib

/-!
Verification of the ERC-4626 deposit preparer (`src/index.ts`).

The repository exposes a single async function `deposit(client, {wallet, vault, amount})`
that reads the vault's underlying asset, the wallet's balance, the allowance granted to
the vault and the vault's deposit cap through a viem `PublicClient`, then encodes a
`deposit(uint256,address)` call and estimates its gas, returning a transaction
descriptor.  We embed it shallowly: every capability call of the client is a field of a
`PublicClient` record returning `Except ε _` (the `ε` value models the infrastructure
error a failing network call rejects with), and the function body is translated
match-by-match from the source.  A second, instrumented copy `depositTrace` records the
sequence of capability invocations; it is proved to compute the same result.
-/

namespace Erc4626

/-- Ethereum addresses, modelled as natural numbers. -/
abbrev Address := Nat

/-- `DepositParams` from src/index.ts: `{wallet, vault, amount}`.
`amount` is a non-negative integer in the token's smallest unit. -/
structure DepositParams where
  wallet : Address
  vault : Address
  amount : Nat
deriving DecidableEq, Repr

/-- The `Transaction` descriptor from src/index.ts: `{data, from, to, value, gas}`.
(`from` is a Lean keyword, hence `fromAddr`.)  `data` is the encoded call data as a
byte sequence. -/
structure Transaction where
  data : List Nat
  fromAddr : Address
  toAddr : Address
  value : Nat
  gas : Nat
deriving DecidableEq, Repr

/-- The possible failures of `deposit`: the three named validation errors declared in
src/index.ts (`NotEnoughBalanceError`, `MissingAllowanceError`,
`AmountExceedsMaxDepositError`) plus propagation of an infrastructure error `ε`
rejected by a capability call. -/
inductive DepositError (ε : Type) where
  | notEnoughBalance
  | missingAllowance
  | amountExceedsMaxDeposit
  | infra (e : ε)
deriving DecidableEq, Repr

/-- The capability object (viem `PublicClient`) consumed by `deposit`, restricted to
the calls the source actually makes.  Each field models one awaited call; `.error e`
models the promise rejecting with infrastructure error `e`.

* `readAsset vault` — `readContract({address: vault, abi: erc4626Abi, functionName: 'asset'})`
* `readBalanceOf token wallet` — `readContract({address: token, abi: erc20Abi, functionName: 'balanceOf', args: [wallet]})`
* `readAllowance token owner spender` — `readContract({address: token, abi: erc20Abi, functionName: 'allowance', args: [owner, spender]})`
* `readMaxDeposit vault wallet` — `readContract({address: vault, abi: erc4626Abi, functionName: 'maxDeposit', args: [wallet]})`
* `estimateGas account to data value` — `estimateGas({account, to, data, value})` -/
structure PublicClient (ε : Type) where
  readAsset : Address → Except ε Address
  readBalanceOf : Address → Address → Except ε Nat
  readAllowance : Address → Address → Address → Except ε Nat
  readMaxDeposit : Address → Address → Except ε Nat
  estimateGas : Address → Address → List Nat → Nat → Except ε Nat

/-- Big-endian byte sequence of width `w` for `n` (ABI word encoding). -/
def beBytes : Nat → Nat → List Nat
  | 0, _ => []
  | w + 1, n => n / 256 ^ w % 256 :: beBytes w n

/-- 4-byte function selector of the standard ERC-4626 `deposit(uint256,address)`
function: `0x6e553f65`. -/
def depositSelector : List Nat := [0x6e, 0x55, 0x3f, 0x65]

/-- Model of viem's `encodeFunctionData({abi: erc4626Abi, functionName: 'deposit',
args: [amount, receiver]})`: the 4-byte selector followed by the two arguments, each
ABI-encoded as a 32-byte big-endian word (the address left-padded with zeros). -/
def encodeFunctionData_deposit (amount : Nat) (receiver : Address) : List Nat :=
  depositSelector ++ beBytes 32 amount ++ beBytes 32 receiver

/-- The `deposit` function of src/index.ts, translated match-by-match: read the
vault's asset, read the wallet's balance (fail `notEnoughBalance` if smaller than
`amount`), read the allowance (fail `missingAllowance` if smaller than `amount`),
read the deposit cap (fail `amountExceedsMaxDeposit` if `amount` exceeds it), encode
the call data, estimate gas, and return the descriptor.  A failing capability call
short-circuits as `.infra e`. -/
def deposit (client : PublicClient ε) (p : DepositParams) :
    Except (DepositError ε) Transaction :=
  match client.readAsset p.vault with
  | .error e => .error (.infra e)
  | .ok assetAddress =>
    match client.readBalanceOf assetAddress p.wallet with
    | .error e => .error (.infra e)
    | .ok userBalance =>
      if userBalance < p.amount then
        .error .notEnoughBalance
      else
        match client.readAllowance assetAddress p.wallet p.vault with
        | .error e => .error (.infra e)
        | .ok allowance =>
          if allowance < p.amount then
            .error .missingAllowance
          else
            match client.readMaxDeposit p.vault p.wallet with
            | .error e => .error (.infra e)
            | .ok maxDeposit =>
              if p.amount > maxDeposit then
                .error .amountExceedsMaxDeposit
              else
                let data := encodeFunctionData_deposit p.amount p.wallet
                match client.estimateGas p.wallet p.vault data 0 with
                | .error e => .error (.infra e)
                | .ok gas =>
                  .ok { data := data, fromAddr := p.wallet, toAddr := p.vault,
                        value := 0, gas := gas }

/-- One capability invocation performed during a run of `deposit`, with the arguments
it was called with.  `encodeDeposit` records the (pure) encoding step. -/
inductive CallEvent where
  | readAsset (vault : Address)
  | readBalanceOf (token wallet : Address)
  | readAllowance (token owner spender : Address)
  | readMaxDeposit (vault wallet : Address)
  | encodeDeposit (amount : Nat) (receiver : Address)
  | estimateGas (account toAddr : Address) (data : List Nat) (value : Nat)
deriving DecidableEq, Repr

/-- Instrumented copy of `deposit`: same control flow, and additionally returns the
list of capability invocations, in order.  `depositTrace_fst` below proves it computes
the same result as `deposit`. -/
def depositTrace (client : PublicClient ε) (p : DepositParams) :
    Except (DepositError ε) Transaction × List CallEvent :=
  match client.readAsset p.vault with
  | .error e => (.error (.infra e), [.readAsset p.vault])
  | .ok assetAddress =>
    match client.readBalanceOf assetAddress p.wallet with
    | .error e => (.error (.infra e),
        [.readAsset p.vault, .readBalanceOf assetAddress p.wallet])
    | .ok userBalance =>
      if userBalance < p.amount then
        (.error .notEnoughBalance,
          [.readAsset p.vault, .readBalanceOf assetAddress p.wallet])
      else
        match client.readAllowance assetAddress p.wallet p.vault with
        | .error e => (.error (.infra e),
            [.readAsset p.vault, .readBalanceOf assetAddress p.wallet,
             .readAllowance assetAddress p.wallet p.vault])
        | .ok allowance =>
          if allowance < p.amount then
            (.error .missingAllowance,
              [.readAsset p.vault, .readBalanceOf assetAddress p.wallet,
               .readAllowance assetAddress p.wallet p.vault])
          else
            match client.readMaxDeposit p.vault p.wallet with
            | .error e => (.error (.infra e),
                [.readAsset p.vault, .readBalanceOf assetAddress p.wallet,
                 .readAllowance assetAddress p.wallet p.vault,
                 .readMaxDeposit p.vault p.wallet])
            | .ok maxDeposit =>
              if p.amount > maxDeposit then
                (.error .amountExceedsMaxDeposit,
                  [.readAsset p.vault, .readBalanceOf assetAddress p.wallet,
                   .readAllowance assetAddress p.wallet p.vault,
                   .readMaxDeposit p.vault p.wallet])
              else
                let data := encodeFunctionData_deposit p.amount p.wallet
                match client.estimateGas p.wallet p.vault data 0 with
                | .error e => (.error (.infra e),
                    [.readAsset p.vault, .readBalanceOf assetAddress p.wallet,
                     .readAllowance assetAddress p.wallet p.vault,
                     .readMaxDeposit p.vault p.wallet,
                     .encodeDeposit p.amount p.wallet,
                     .estimateGas p.wallet p.vault data 0])
                | .ok gas =>
                  (.ok { data := data, fromAddr := p.wallet, toAddr := p.vault,
                         value := 0, gas := gas },
                    [.readAsset p.vault, .readBalanceOf assetAddress p.wallet,
                     .readAllowance assetAddress p.wallet p.vault,
                     .readMaxDeposit p.vault p.wallet,
                     .encodeDeposit p.amount p.wallet,
                     .estimateGas p.wallet p.vault data 0])

/-- The instrumented run computes the same result as `deposit`. -/
theorem depositTrace_fst (client : PublicClient ε) (p : DepositParams) :
    (depositTrace client p).1 = deposit client p := by
  unfold depositTrace deposit
  dsimp only
  repeat' split
  all_goals rfl

/-- Inversion on a successful run: every descriptor returned by `deposit` carries the
encoding of `deposit(amount, wallet)` as data, the wallet as sender, the vault as
recipient, zero native value, and a gas value that is exactly what the estimation
capability returned for that call. -/
theorem deposit_ok_shape (client : PublicClient ε) (p : DepositParams) (t : Transaction)
    (h : deposit client p = .ok t) :
    t.data = encodeFunctionData_deposit p.amount p.wallet ∧
    t.fromAddr = p.wallet ∧ t.toAddr = p.vault ∧ t.value = 0 ∧
    client.estimateGas p.wallet p.vault (encodeFunctionData_deposit p.amount p.wallet) 0
      = .ok t.gas := by
  unfold deposit at h
  repeat' split at h
  all_goals
    rcases hG : client.estimateGas p.wallet p.vault
        (encodeFunctionData_deposit p.amount p.wallet) 0 with e | g <;>
      simp_all
  all_goals
    subst h
  all_goals
    exact ⟨rfl, rfl, rfl, rfl, rfl⟩

/-- The three client-side validation checks of `deposit`, as a boolean: the asset and
the three reads succeed and `amount` is within balance, allowance and deposit cap. -/
def validationsPass (client : PublicClient ε) (p : DepositParams) : Bool :=
  match client.readAsset p.vault with
  | .error _ => false
  | .ok a =>
    match client.readBalanceOf a p.wallet, client.readAllowance a p.wallet p.vault,
          client.readMaxDeposit p.vault p.wallet with
    | .ok b, .ok al, .ok m =>
        decide (p.amount ≤ b) && decide (p.amount ≤ al) && decide (p.amount ≤ m)
    | _, _, _ => false

/-- The canonical complete call sequence of a run of `deposit`: asset read, balance
read, allowance read, max-deposit read, encoding, gas estimation.  (The arguments of
the last five calls depend on the asset address, hence the match.) -/
def fullTrace (client : PublicClient ε) (p : DepositParams) : List CallEvent :=
  CallEvent.readAsset p.vault ::
    match client.readAsset p.vault with
    | .error _ => []
    | .ok a =>
      [.readBalanceOf a p.wallet, .readAllowance a p.wallet p.vault,
       .readMaxDeposit p.vault p.wallet, .encodeDeposit p.amount p.wallet,
       .estimateGas p.wallet p.vault (encodeFunctionData_deposit p.amount p.wallet) 0]

/-- `e` is the error value actually produced by one of the capability calls `deposit`
makes for `p` (propagation source of an infrastructure failure). -/
def infraSource (client : PublicClient ε) (p : DepositParams) (e : ε) : Prop :=
  client.readAsset p.vault = .error e ∨
  (∃ a, client.readAsset p.vault = .ok a ∧
    (client.readBalanceOf a p.wallet = .error e ∨
     client.readAllowance a p.wallet p.vault = .error e)) ∨
  client.readMaxDeposit p.vault p.wallet = .error e ∨
  client.estimateGas p.wallet p.vault (encodeFunctionData_deposit p.amount p.wallet) 0
    = .error e

/-- Concrete in-memory client mirroring the happy-path test fixture
(balance 1000, allowance 1000, cap 1000000, estimate 60000). -/
def demoClient : PublicClient Unit :=
  { readAsset := fun _ => .ok 42
    readBalanceOf := fun _ _ => .ok 1000
    readAllowance := fun _ _ _ => .ok 1000
    readMaxDeposit := fun _ _ => .ok 1000000
    estimateGas := fun _ _ _ _ => .ok 60000 }

/-- Concrete client whose wallet balance is only 50. -/
def lowBalanceClient : PublicClient Unit :=
  { readAsset := fun _ => .ok 42
    readBalanceOf := fun _ _ => .ok 50
    readAllowance := fun _ _ _ => .ok 1000
    readMaxDeposit := fun _ _ => .ok 1000000
    estimateGas := fun _ _ _ _ => .ok 60000 }

/-- Concrete client with zero allowance. -/
def zeroAllowanceClient : PublicClient Unit :=
  { readAsset := fun _ => .ok 42
    readBalanceOf := fun _ _ => .ok 1000
    readAllowance := fun _ _ _ => .ok 0
    readMaxDeposit := fun _ _ => .ok 1000000
    estimateGas := fun _ _ _ _ => .ok 60000 }

/-- Concrete client whose deposit cap is only 50. -/
def lowMaxClient : PublicClient Unit :=
  { readAsset := fun _ => .ok 42
    readBalanceOf := fun _ _ => .ok 1000
    readAllowance := fun _ _ _ => .ok 1000
    readMaxDeposit := fun _ _ => .ok 50
    estimateGas := fun _ _ _ _ => .ok 60000 }

/-- Concrete client whose deposit cap is exactly 1000 (for the boundary case). -/
def maxEdgeClient : PublicClient Unit :=
  { readAsset := fun _ => .ok 42
    readBalanceOf := fun _ _ => .ok 1000
    readAllowance := fun _ _ _ => .ok 1000
    readMaxDeposit := fun _ _ => .ok 1000
    estimateGas := fun _ _ _ _ => .ok 60000 }

/-- Concrete client whose gas-estimation capability returns 0. -/
def lowGasClient : PublicClient Unit :=
  { readAsset := fun _ => .ok 42
    readBalanceOf := fun _ _ => .ok 1000
    readAllowance := fun _ _ _ => .ok 1000
    readMaxDeposit := fun _ _ => .ok 1000000
    estimateGas := fun _ _ _ _ => .ok 0 }

/-- Concrete client on a different chain state: different asset address, balances,
cap and gas estimate than `demoClient`. -/
def altStateClient : PublicClient Unit :=
  { readAsset := fun _ => .ok 99
    readBalanceOf := fun _ _ => .ok 5000
    readAllowance := fun _ _ _ => .ok 2000
    readMaxDeposit := fun _ _ => .ok 10000000
    estimateGas := fun _ _ _ _ => .ok 75000 }

/-- C1: when the three validation checks pass and every capability call succeeds,
`deposit` returns the descriptor whose data is the ABI encoding of
`deposit(amount, receiver = wallet)`, whose sender is the wallet, whose recipient is
the vault, whose native value is 0, and whose gas is exactly the value the
gas-estimation capability returned for (from = wallet, to = vault, that data,
value = 0). -/
theorem deposit_success_descriptor (client : PublicClient ε) (p : DepositParams)
    (a b al m g : Nat)
    (hA : client.readAsset p.vault = .ok a)
    (hB : client.readBalanceOf a p.wallet = .ok b) (hb : p.amount ≤ b)
    (hAl : client.readAllowance a p.wallet p.vault = .ok al) (hal : p.amount ≤ al)
    (hM : client.readMaxDeposit p.vault p.wallet = .ok m) (hm : p.amount ≤ m)
    (hG : client.estimateGas p.wallet p.vault
        (encodeFunctionData_deposit p.amount p.wallet) 0 = .ok g) :
    deposit client p =
      .ok { data := encodeFunctionData_deposit p.amount p.wallet,
            fromAddr := p.wallet, toAddr := p.vault, value := 0, gas := g } := by
  simp [deposit, hA, hB, hAl, hM, hG,
    Nat.not_lt.mpr hb, Nat.not_lt.mpr hal, Nat.not_lt.mpr hm]

/-- Witness for C1: the happy-path fixture (balance 1000, allowance 1000,
cap 1000000, amount 100, estimate 60000). -/
theorem deposit_success_descriptor_witness :
    deposit demoClient ⟨5, 7, 100⟩ =
      .ok { data := encodeFunctionData_deposit 100 5, fromAddr := 5, toAddr := 7,
            value := 0, gas := 60000 } :=
  deposit_success_descriptor demoClient ⟨5, 7, 100⟩ 42 1000 1000 1000000 60000
    rfl rfl (by decide) rfl (by decide) rfl (by decide) rfl

/-- C2: when the balance read returns `b < amount`, `deposit` fails with
`notEnoughBalance`, and the run stops right there: the trace is exactly the asset
read followed by the balance read, so no allowance read, max-deposit read, encoding
or gas estimation happens, and the outcome does not depend on the allowance or
max-deposit capabilities at all (they are unconstrained here). -/
theorem deposit_insufficient_balance (client : PublicClient ε) (p : DepositParams)
    (a b : Nat) (hA : client.readAsset p.vault = .ok a)
    (hB : client.readBalanceOf a p.wallet = .ok b) (hlt : b < p.amount) :
    deposit client p = .error .notEnoughBalance ∧
    depositTrace client p = (.error .notEnoughBalance,
      [.readAsset p.vault, .readBalanceOf a p.wallet]) := by
  constructor
  · simp [deposit, hA, hB, hlt]
  · simp [depositTrace, hA, hB, hlt]

/-- Witness for C2: balance 50, amount 100. -/
theorem deposit_insufficient_balance_witness :
    deposit lowBalanceClient ⟨5, 7, 100⟩ = .error .notEnoughBalance ∧
    depositTrace lowBalanceClient ⟨5, 7, 100⟩ = (.error .notEnoughBalance,
      [.readAsset 7, .readBalanceOf 42 5]) :=
  deposit_insufficient_balance lowBalanceClient ⟨5, 7, 100⟩ 42 50 rfl rfl (by decide)

/-- C3: when the balance suffices but the allowance read returns `al < amount`,
`deposit` fails with `missingAllowance`; the trace stops after the allowance read, so
the max-deposit capability (unconstrained here) is never consulted and cannot affect
the outcome. -/
theorem deposit_missing_allowance (client : PublicClient ε) (p : DepositParams)
    (a b al : Nat) (hA : client.readAsset p.vault = .ok a)
    (hB : client.readBalanceOf a p.wallet = .ok b) (hb : p.amount ≤ b)
    (hAl : client.readAllowance a p.wallet p.vault = .ok al) (hlt : al < p.amount) :
    deposit client p = .error .missingAllowance ∧
    depositTrace client p = (.error .missingAllowance,
      [.readAsset p.vault, .readBalanceOf a p.wallet,
       .readAllowance a p.wallet p.vault]) := by
  constructor
  · simp [deposit, hA, hB, hAl, hlt, Nat.not_lt.mpr hb]
  · simp [depositTrace, hA, hB, hAl, hlt, Nat.not_lt.mpr hb]

/-- Witness for C3: balance 1000, allowance 0, amount 100. -/
theorem deposit_missing_allowance_witness :
    deposit zeroAllowanceClient ⟨5, 7, 100⟩ = .error .missingAllowance ∧
    depositTrace zeroAllowanceClient ⟨5, 7, 100⟩ = (.error .missingAllowance,
      [.readAsset 7, .readBalanceOf 42 5, .readAllowance 42 5 7]) :=
  deposit_missing_allowance zeroAllowanceClient ⟨5, 7, 100⟩ 42 1000 0
    rfl rfl (by decide) rfl (by decide)

/-- C4: when balance and allowance suffice and the max-deposit read returns `m`,
`deposit` fails with `amountExceedsMaxDeposit` exactly when `m < amount` (stopping
right after the max-deposit read); when `amount = m` this check does not fail. -/
theorem deposit_max_deposit_check (client : PublicClient ε) (p : DepositParams)
    (a b al m : Nat) (hA : client.readAsset p.vault = .ok a)
    (hB : client.readBalanceOf a p.wallet = .ok b) (hb : p.amount ≤ b)
    (hAl : client.readAllowance a p.wallet p.vault = .ok al) (hal : p.amount ≤ al)
    (hM : client.readMaxDeposit p.vault p.wallet = .ok m) :
    (m < p.amount →
      deposit client p = .error .amountExceedsMaxDeposit ∧
      depositTrace client p = (.error .amountExceedsMaxDeposit,
        [.readAsset p.vault, .readBalanceOf a p.wallet,
         .readAllowance a p.wallet p.vault, .readMaxDeposit p.vault p.wallet])) ∧
    (p.amount = m → deposit client p ≠ .error .amountExceedsMaxDeposit) := by
  constructor
  · intro hlt
    constructor
    · simp [deposit, hA, hB, hAl, hM, hlt, Nat.not_lt.mpr hb, Nat.not_lt.mpr hal]
    · simp [depositTrace, hA, hB, hAl, hM, hlt, Nat.not_lt.mpr hb, Nat.not_lt.mpr hal]
  · intro heq
    have hnm : ¬ m < p.amount := by omega
    rcases hG : client.estimateGas p.wallet p.vault
        (encodeFunctionData_deposit p.amount p.wallet) 0 with e | g <;>
      simp [deposit, hA, hB, hAl, hM, hG, hnm,
        Nat.not_lt.mpr hb, Nat.not_lt.mpr hal]

/-- Witness for C4: cap 50 with amount 100 fails; cap 1000 with amount exactly 1000
does not fail the cap check. -/
theorem deposit_max_deposit_check_witness :
    (deposit lowMaxClient ⟨5, 7, 100⟩ = .error .amountExceedsMaxDeposit ∧
     depositTrace lowMaxClient ⟨5, 7, 100⟩ = (.error .amountExceedsMaxDeposit,
       [.readAsset 7, .readBalanceOf 42 5, .readAllowance 42 5 7,
        .readMaxDeposit 7 5])) ∧
    deposit maxEdgeClient ⟨5, 7, 1000⟩ ≠ .error .amountExceedsMaxDeposit :=
  ⟨(deposit_max_deposit_check lowMaxClient ⟨5, 7, 100⟩ 42 1000 1000 50
      rfl rfl (by decide) rfl (by decide) rfl).1 (by decide),
   (deposit_max_deposit_check maxEdgeClient ⟨5, 7, 1000⟩ 42 1000 1000 1000
      rfl rfl (by decide) rfl (by decide) rfl).2 rfl⟩

/-- Counterexample to C5 as stated: the code forwards the gas-estimation capability's
value unchanged, so with a capability returning 0 the three checks pass (balance 1000,
allowance 1000, cap 1000000, amount 100) yet the returned descriptor's gas is 0, not
strictly greater than 21000. -/
theorem deposit_gas_bound_counterexample :
    ∃ t, deposit lowGasClient ⟨5, 7, 100⟩ = .ok t ∧
      validationsPass lowGasClient ⟨5, 7, 100⟩ = true ∧ ¬ 21000 < t.gas :=
  ⟨{ data := encodeFunctionData_deposit 100 5, fromAddr := 5, toAddr := 7,
     value := 0, gas := 0 }, rfl, rfl, by decide⟩

/-- C5 (amended): for every request satisfying all three preconditions (and whose
capability calls succeed), the descriptor's data is non-empty and begins with the
standard `deposit(uint256,address)` selector, and its gas equals exactly the
estimation capability's value — in particular it lies strictly between 21000 and an
upper bound whenever the estimate does. -/
theorem deposit_success_data_selector_gas (client : PublicClient ε)
    (p : DepositParams) (a b al m g : Nat)
    (hA : client.readAsset p.vault = .ok a)
    (hB : client.readBalanceOf a p.wallet = .ok b) (hb : p.amount ≤ b)
    (hAl : client.readAllowance a p.wallet p.vault = .ok al) (hal : p.amount ≤ al)
    (hM : client.readMaxDeposit p.vault p.wallet = .ok m) (hm : p.amount ≤ m)
    (hG : client.estimateGas p.wallet p.vault
        (encodeFunctionData_deposit p.amount p.wallet) 0 = .ok g) :
    ∃ t, deposit client p = .ok t ∧ t.data ≠ [] ∧
      t.data.take 4 = depositSelector ∧ t.gas = g ∧
      (21000 < g ∧ g < 500000 → 21000 < t.gas ∧ t.gas < 500000) := by
  refine ⟨{ data := encodeFunctionData_deposit p.amount p.wallet,
            fromAddr := p.wallet, toAddr := p.vault, value := 0, gas := g },
    ?_, ?_, rfl, rfl, fun h => h⟩
  · simp [deposit, hA, hB, hAl, hM, hG,
      Nat.not_lt.mpr hb, Nat.not_lt.mpr hal, Nat.not_lt.mpr hm]
  · simp [encodeFunctionData_deposit, depositSelector]

/-- Witness for C5 (amended) at the happy-path fixture, whose estimate 60000 lies in
the (21000, 500000) window. -/
theorem deposit_success_data_selector_gas_witness :
    ∃ t, deposit demoClient ⟨5, 7, 100⟩ = .ok t ∧ t.data ≠ [] ∧
      t.data.take 4 = depositSelector ∧ t.gas = 60000 ∧
      (21000 < 60000 ∧ 60000 < 500000 → 21000 < t.gas ∧ t.gas < 500000) :=
  deposit_success_data_selector_gas demoClient ⟨5, 7, 100⟩ 42 1000 1000 1000000 60000
    rfl rfl (by decide) rfl (by decide) rfl (by decide) rfl

/-- C6: every run of `deposit` has exactly one of five outcomes: a complete
descriptor, one of the three named validation errors, or an `infra e` error whose
payload `e` is exactly the error produced by one of the capability calls (never a
reinterpretation); the `Except` result type itself rules out any partial success. -/
theorem deposit_outcomes (client : PublicClient ε) (p : DepositParams) :
    (∃ t, deposit client p = .ok t) ∨
    deposit client p = .error .notEnoughBalance ∨
    deposit client p = .error .missingAllowance ∨
    deposit client p = .error .amountExceedsMaxDeposit ∨
    (∃ e, deposit client p = .error (.infra e) ∧ infraSource client p e) := by
  rcases hA : client.readAsset p.vault with e | a
  · exact Or.inr (Or.inr (Or.inr (Or.inr ⟨e, by simp [deposit, hA], Or.inl hA⟩)))
  rcases hB : client.readBalanceOf a p.wallet with e | b
  · exact Or.inr (Or.inr (Or.inr (Or.inr ⟨e, by simp [deposit, hA, hB],
      Or.inr (Or.inl ⟨a, hA, Or.inl hB⟩)⟩)))
  by_cases h1 : b < p.amount
  · exact Or.inr (Or.inl (by simp [deposit, hA, hB, h1]))
  rcases hAl : client.readAllowance a p.wallet p.vault with e | al
  · exact Or.inr (Or.inr (Or.inr (Or.inr ⟨e, by simp [deposit, hA, hB, h1, hAl],
      Or.inr (Or.inl ⟨a, hA, Or.inr hAl⟩)⟩)))
  by_cases h2 : al < p.amount
  · exact Or.inr (Or.inr (Or.inl (by simp [deposit, hA, hB, h1, hAl, h2])))
  rcases hM : client.readMaxDeposit p.vault p.wallet with e | m
  · exact Or.inr (Or.inr (Or.inr (Or.inr ⟨e,
      by simp [deposit, hA, hB, h1, hAl, h2, hM],
      Or.inr (Or.inr (Or.inl hM))⟩)))
  by_cases h3 : m < p.amount
  · exact Or.inr (Or.inr (Or.inr (Or.inl
      (by simp [deposit, hA, hB, h1, hAl, h2, hM, h3]))))
  rcases hG : client.estimateGas p.wallet p.vault
      (encodeFunctionData_deposit p.amount p.wallet) 0 with e | g
  · exact Or.inr (Or.inr (Or.inr (Or.inr ⟨e,
      by simp [deposit, hA, hB, h1, hAl, h2, hM, h3, hG],
      Or.inr (Or.inr (Or.inr hG))⟩)))
  · exact Or.inl ⟨{ data := encodeFunctionData_deposit p.amount p.wallet,
                    fromAddr := p.wallet, toAddr := p.vault, value := 0, gas := g },
      by simp [deposit, hA, hB, h1, hAl, h2, hM, h3, hG]⟩

/-- C7: the trace of every run of `deposit` is a prefix of the canonical call
sequence (asset read, balance read, allowance read, max-deposit read, encoding, gas
estimation), so the calls happen in that strict order; moreover an encoding or
gas-estimation event appears in the trace only when all three validation checks
pass. -/
theorem deposit_call_order (client : PublicClient ε) (p : DepositParams) :
    (∃ rest, (depositTrace client p).2 ++ rest = fullTrace client p) ∧
    (∀ x r, CallEvent.encodeDeposit x r ∈ (depositTrace client p).2 →
      validationsPass client p = true) ∧
    (∀ f t d v, CallEvent.estimateGas f t d v ∈ (depositTrace client p).2 →
      validationsPass client p = true) := by
  rcases hA : client.readAsset p.vault with e | a
  · exact ⟨⟨[], by simp [depositTrace, fullTrace, hA]⟩,
      by simp [depositTrace, hA], by simp [depositTrace, hA]⟩
  rcases hB : client.readBalanceOf a p.wallet with e | b
  · exact ⟨⟨[.readAllowance a p.wallet p.vault, .readMaxDeposit p.vault p.wallet,
        .encodeDeposit p.amount p.wallet,
        .estimateGas p.wallet p.vault (encodeFunctionData_deposit p.amount p.wallet) 0],
        by simp [depositTrace, fullTrace, hA, hB]⟩,
      by simp [depositTrace, hA, hB], by simp [depositTrace, hA, hB]⟩
  by_cases h1 : b < p.amount
  · exact ⟨⟨[.readAllowance a p.wallet p.vault, .readMaxDeposit p.vault p.wallet,
        .encodeDeposit p.amount p.wallet,
        .estimateGas p.wallet p.vault (encodeFunctionData_deposit p.amount p.wallet) 0],
        by simp [depositTrace, fullTrace, hA, hB, h1]⟩,
      by simp [depositTrace, hA, hB, h1], by simp [depositTrace, hA, hB, h1]⟩
  rcases hAl : client.readAllowance a p.wallet p.vault with e | al
  · exact ⟨⟨[.readMaxDeposit p.vault p.wallet, .encodeDeposit p.amount p.wallet,
        .estimateGas p.wallet p.vault (encodeFunctionData_deposit p.amount p.wallet) 0],
        by simp [depositTrace, fullTrace, hA, hB, h1, hAl]⟩,
      by simp [depositTrace, hA, hB, h1, hAl],
      by simp [depositTrace, hA, hB, h1, hAl]⟩
  by_cases h2 : al < p.amount
  · exact ⟨⟨[.readMaxDeposit p.vault p.wallet, .encodeDeposit p.amount p.wallet,
        .estimateGas p.wallet p.vault (encodeFunctionData_deposit p.amount p.wallet) 0],
        by simp [depositTrace, fullTrace, hA, hB, h1, hAl, h2]⟩,
      by simp [depositTrace, hA, hB, h1, hAl, h2],
      by simp [depositTrace, hA, hB, h1, hAl, h2]⟩
  rcases hM : client.readMaxDeposit p.vault p.wallet with e | m
  · exact ⟨⟨[.encodeDeposit p.amount p.wallet,
        .estimateGas p.wallet p.vault (encodeFunctionData_deposit p.amount p.wallet) 0],
        by simp [depositTrace, fullTrace, hA, hB, h1, hAl, h2, hM]⟩,
      by simp [depositTrace, hA, hB, h1, hAl, h2, hM],
      by simp [depositTrace, hA, hB, h1, hAl, h2, hM]⟩
  by_cases h3 : m < p.amount
  · exact ⟨⟨[.encodeDeposit p.amount p.wallet,
        .estimateGas p.wallet p.vault (encodeFunctionData_deposit p.amount p.wallet) 0],
        by simp [depositTrace, fullTrace, hA, hB, h1, hAl, h2, hM, h3]⟩,
      by simp [depositTrace, hA, hB, h1, hAl, h2, hM, h3],
      by simp [depositTrace, hA, hB, h1, hAl, h2, hM, h3]⟩
  have hvp : validationsPass client p = true := by
    simp [validationsPass, hA, hB, hAl, hM,
      Nat.le_of_not_lt h1, Nat.le_of_not_lt h2, Nat.le_of_not_lt h3]
  rcases hG : client.estimateGas p.wallet p.vault
      (encodeFunctionData_deposit p.amount p.wallet) 0 with e | g
  · exact ⟨⟨[], by simp [depositTrace, fullTrace, hA, hB, h1, hAl, h2, hM, h3, hG]⟩,
      fun _ _ _ => hvp, fun _ _ _ _ _ => hvp⟩
  · exact ⟨⟨[], by simp [depositTrace, fullTrace, hA, hB, h1, hAl, h2, hM, h3, hG]⟩,
      fun _ _ _ => hvp, fun _ _ _ _ _ => hvp⟩

/-- Witness for C7: on the happy-path fixture the encoding event is in the trace and
the checks indeed all pass. -/
theorem deposit_call_order_witness :
    validationsPass demoClient ⟨5, 7, 100⟩ = true :=
  (deposit_call_order demoClient ⟨5, 7, 100⟩).2.1 100 5 (by decide)

/-- C8: with a fixed client (fixed on-chain read results) and a fixed request, any
two successful runs of `deposit` return byte-identical encoded call data, and that
data is the pure function `encodeFunctionData_deposit` of (amount, wallet) alone. -/
theorem deposit_encoding_idempotent (client : PublicClient ε) (p : DepositParams)
    (t₁ t₂ : Transaction)
    (h₁ : deposit client p = .ok t₁) (h₂ : deposit client p = .ok t₂) :
    t₁.data = t₂.data ∧
    t₁.data = encodeFunctionData_deposit p.amount p.wallet := by
  have s₁ := deposit_ok_shape client p t₁ h₁
  have s₂ := deposit_ok_shape client p t₂ h₂
  exact ⟨s₁.1.trans s₂.1.symm, s₁.1⟩

/-- Witness for C8: two runs on the happy-path fixture. -/
theorem deposit_encoding_idempotent_witness :
    (Transaction.mk (encodeFunctionData_deposit 100 5) 5 7 0 60000).data =
      (Transaction.mk (encodeFunctionData_deposit 100 5) 5 7 0 60000).data ∧
    (Transaction.mk (encodeFunctionData_deposit 100 5) 5 7 0 60000).data =
      encodeFunctionData_deposit 100 5 :=
  deposit_encoding_idempotent demoClient ⟨5, 7, 100⟩
    (Transaction.mk (encodeFunctionData_deposit 100 5) 5 7 0 60000)
    (Transaction.mk (encodeFunctionData_deposit 100 5) 5 7 0 60000) rfl rfl

/-- C9: a zero-amount request never raises a validation error (the comparisons are
strict and the values unsigned), and when every capability call succeeds it returns
the descriptor encoding `deposit(0, wallet)`. -/
theorem deposit_zero_amount (client : PublicClient ε) (w v : Address) :
    deposit client ⟨w, v, 0⟩ ≠ .error .notEnoughBalance ∧
    deposit client ⟨w, v, 0⟩ ≠ .error .missingAllowance ∧
    deposit client ⟨w, v, 0⟩ ≠ .error .amountExceedsMaxDeposit ∧
    ∀ a b al m g, client.readAsset v = .ok a → client.readBalanceOf a w = .ok b →
      client.readAllowance a w v = .ok al → client.readMaxDeposit v w = .ok m →
      client.estimateGas w v (encodeFunctionData_deposit 0 w) 0 = .ok g →
      deposit client ⟨w, v, 0⟩ =
        .ok { data := encodeFunctionData_deposit 0 w, fromAddr := w, toAddr := v,
              value := 0, gas := g } := by
  refine ⟨?_, ?_, ?_, ?_⟩
  · intro hcon
    unfold deposit at hcon
    repeat' split at hcon
    all_goals
      rcases hG : client.estimateGas w v (encodeFunctionData_deposit 0 w) 0 with e | g <;>
        simp_all
  · intro hcon
    unfold deposit at hcon
    repeat' split at hcon
    all_goals
      rcases hG : client.estimateGas w v (encodeFunctionData_deposit 0 w) 0 with e | g <;>
        simp_all
  · intro hcon
    unfold deposit at hcon
    repeat' split at hcon
    all_goals
      rcases hG : client.estimateGas w v (encodeFunctionData_deposit 0 w) 0 with e | g <;>
        simp_all
  · intro a b al m g hA hB hAl hM hG
    simp [deposit, hA, hB, hAl, hM, hG]

/-- Witness for C9: amount 0 on the happy-path fixture succeeds with
`deposit(0, wallet)` call data. -/
theorem deposit_zero_amount_witness :
    deposit demoClient ⟨5, 7, 0⟩ =
      .ok { data := encodeFunctionData_deposit 0 5, fromAddr := 5, toAddr := 7,
            value := 0, gas := 60000 } :=
  (deposit_zero_amount demoClient 5 7).2.2.2 42 1000 1000 1000000 60000
    rfl rfl rfl rfl rfl

/-- C10: the encoded call data of a successful run depends only on (amount, wallet):
two successful runs against different clients (different vault/asset addresses and
different read results) with the same amount and wallet produce identical data; the
vault address shows up only as the recipient. -/
theorem deposit_data_independent_of_state (c₁ : PublicClient ε₁)
    (c₂ : PublicClient ε₂) (p₁ p₂ : DepositParams)
    (hAm : p₁.amount = p₂.amount) (hW : p₁.wallet = p₂.wallet)
    (t₁ t₂ : Transaction)
    (h₁ : deposit c₁ p₁ = .ok t₁) (h₂ : deposit c₂ p₂ = .ok t₂) :
    t₁.data = t₂.data ∧ t₁.toAddr = p₁.vault ∧ t₂.toAddr = p₂.vault := by
  have s₁ := deposit_ok_shape c₁ p₁ t₁ h₁
  have s₂ := deposit_ok_shape c₂ p₂ t₂ h₂
  refine ⟨?_, s₁.2.2.1, s₂.2.2.1⟩
  rw [s₁.1, s₂.1, hAm, hW]

/-- Witness for C10: same wallet 5 and amount 100 against two different clients and
vault addresses (7 vs 9) yield the same data and the respective recipients. -/
theorem deposit_data_independent_of_state_witness :
    (Transaction.mk (encodeFunctionData_deposit 100 5) 5 7 0 60000).data =
      (Transaction.mk (encodeFunctionData_deposit 100 5) 5 9 0 75000).data ∧
    (Transaction.mk (encodeFunctionData_deposit 100 5) 5 7 0 60000).toAddr = 7 ∧
    (Transaction.mk (encodeFunctionData_deposit 100 5) 5 9 0 75000).toAddr = 9 :=
  deposit_data_independent_of_state demoClient altStateClient ⟨5, 7, 100⟩ ⟨5, 9, 100⟩
    rfl rfl (Transaction.mk (encodeFunctionData_deposit 100 5) 5 7 0 60000)
    (Transaction.mk (encodeFunctionData_deposit 100 5) 5 9 0 75000) rfl rfl

end Erc4626
